import Mathlib

set_option maxRecDepth 8192

/-!
Shallow embedding of the diabetes-risk web application (src/app.py).

Numeric values are modelled as exact rationals (ℚ): Python floats are used
by the program only for comparisons against decimal thresholds, one
rounding to a single decimal place, and decimal formatting/parsing, all of
which behave on the relevant values exactly as exact decimal arithmetic.
Python `round(x, 1)` rounds half to even; `rhe` below models that rule.
Python `float(s)` is modelled by `parseFloat` on the decimal-literal core
of its grammar (optional minus sign, digits, optional fraction part): no
exponents, infinities, NaN, underscores or surrounding whitespace, none of
which occur in the values this program produces or that the claims are
about.  Python `str` of a nonnegative one-decimal float is modelled by
`fmtTenths`.  HTTP form bodies are association lists of string pairs.
-/

/-- The character for a decimal digit `d < 10` (ASCII `'0'` + d). -/
def dChar (d : Nat) : Char := Char.ofNat (48 + d)

/-- Inverse of `dChar`: the numeric value of a decimal digit character. -/
def charDigit (c : Char) : Option Nat :=
  if '0' ≤ c ∧ c ≤ '9' then some (c.toNat - 48) else none

/-- Read a run of decimal digit characters, accumulating the value;
`none` as soon as a non-digit appears.  The empty list yields `acc`. -/
def parseDigitsAux (acc : Nat) : List Char → Option Nat
  | [] => some acc
  | c :: cs =>
    match charDigit c with
    | some d => parseDigitsAux (acc * 10 + d) cs
    | none => none

/-- Split a character list at the first `'.'`: the part before it and,
when a dot is present, the part after it. -/
def splitDot : List Char → (List Char × Option (List Char))
  | [] => ([], none)
  | c :: rest =>
    if c == '.' then ([], some rest)
    else
      let p := splitDot rest
      (c :: p.1, p.2)

/-- Unsigned decimal literal: `digits`, `digits.digits`, `digits.` or
`.digits` (at least one digit overall), as accepted by Python `float`. -/
def parseUnsigned (l : List Char) : Option ℚ :=
  match splitDot l with
  | (ip, none) =>
    if ip.isEmpty then none
    else (parseDigitsAux 0 ip).map (fun n => (n : ℚ))
  | (ip, some fp) =>
    if ip.isEmpty && fp.isEmpty then none
    else
      match parseDigitsAux 0 ip, parseDigitsAux 0 fp with
      | some i, some f => some ((i : ℚ) + (f : ℚ) / (10 : ℚ) ^ fp.length)
      | _, _ => none

/-- Model of Python `float(s)` on the decimal-literal core of its grammar
(src/app.py line 24: `float(form.get(key, default))`, and line 201:
`float(request.form["risk_percent"])`); `none` models `ValueError`. -/
def parseFloat (s : String) : Option ℚ :=
  match s.data with
  | [] => none
  | c :: rest =>
    if c == '-' then (parseUnsigned rest).map (fun q => -q)
    else parseUnsigned (c :: rest)

/-- Decimal digit characters of `n`, most significant first, driven by a
fuel argument (any fuel above `n` suffices, see `natCharsF_parse`). -/
def natCharsF : Nat → Nat → List Char
  | 0, _ => []
  | fuel + 1, n =>
    if n < 10 then [dChar n]
    else natCharsF fuel (n / 10) ++ [dChar (n % 10)]

/-- Decimal digit characters of `n`, most significant first. -/
def natChars (n : Nat) : List Char := natCharsF (n + 1) n

/-- The string `"a.b"` where `a` is `m` tenths' integer part and `b` its
single tenths digit: the decimal rendering of the value `m / 10`. -/
def fmtNatTenths (m : Nat) : String :=
  String.mk (natChars (m / 10) ++ '.' :: natChars (m % 10))

/-- Model of Python `str` on a nonnegative float holding an exact number
of tenths (the shape `round(_, 1)` produces in this program): one digit
after the decimal point, e.g. `30.0`, `42.5`. -/
def fmtTenths (q : ℚ) : String := fmtNatTenths (Int.toNat ⌊q * 10⌋)

/-- Round half to even: the rounding rule of Python `round`. -/
def rhe (x : ℚ) : ℤ :=
  let f : ℤ := ⌊x⌋
  if x - (f : ℚ) < 1 / 2 then f
  else if (1 : ℚ) / 2 < x - (f : ℚ) then f + 1
  else if f % 2 = 0 then f else f + 1

/-- Model of Python `round(x, 1)`: round to one decimal place, half to
even (src/app.py line 61: `round(probability * 100, 1)`). -/
def pyRound1 (x : ℚ) : ℚ := ((rhe (x * 10) : ℤ) : ℚ) / 10

/-- An HTTP form body: an association list of field names and values
(Flask's `request.form`; lookup returns the first binding). -/
abbrev Form := List (String × String)

/-- src/app.py lines 22–26: `float(form.get(key, default))` with
`ValueError` giving back the default.  A missing key makes `form.get`
return the numeric default itself; a present value is parsed and the
default is used when parsing fails.  Total: no error escapes. -/
def get_float (form : Form) (key : String) (default : ℚ) : ℚ :=
  match List.lookup key form with
  | none => default
  | some s =>
    match parseFloat s with
    | some v => v
    | none => default

/-- src/app.py lines 49–58: the fixed-order feature vector
`[pregnancies=0, glucose, blood_pressure, skin_thickness=20, insulin=80,
bmi, dpf=0.5, age]` passed to the model. -/
def assemble (glucose blood_pressure bmi age : ℚ) : List ℚ :=
  [0, glucose, blood_pressure, 20, 80, bmi, 1 / 2, age]

/-- The three risk tiers of the classification in src/app.py lines 63–71. -/
inductive Tier
  | Low
  | Moderate
  | High
deriving DecidableEq

/-- Numeric rank of a tier, for stating monotonicity: Low < Moderate < High. -/
def tierVal : Tier → Nat
  | .Low => 0
  | .Moderate => 1
  | .High => 2

/-- src/app.py lines 63–71: the branch taken by the
`if probability < 0.3 / elif probability < 0.6 / else` cascade. -/
def classifyTier (p : ℚ) : Tier :=
  if p < 3 / 10 then .Low
  else if p < 3 / 5 then .Moderate
  else .High

/-- The tier label used in the result string of each branch
(src/app.py lines 65, 68, 71). -/
def tierLabel : Tier → String
  | .Low => "Low"
  | .Moderate => "Moderate"
  | .High => "High"

/-- The `risk_colour` assigned in each branch (src/app.py lines 64, 67, 70). -/
def tierColour : Tier → String
  | .Low => "green"
  | .Moderate => "orange"
  | .High => "red"

/-- src/app.py lines 73–79: the ordered list of triggered factor phrases. -/
def reasons (glucose bmi age : ℚ) : List String :=
  (if glucose > 140 then ["elevated glucose"] else []) ++
  (if bmi > 30 then ["high BMI"] else []) ++
  (if age > 45 then ["older age"] else [])

/-- src/app.py lines 81–85: the explanation string, depending only on the
raw inputs glucose, bmi and age. -/
def explanationText (glucose bmi age : ℚ) : String :=
  if (reasons glucose bmi age).isEmpty then "No major risk factors detected."
  else "Main contributing factors: " ++ String.intercalate ", " (reasons glucose bmi age)

/-- src/app.py lines 87–91: the advice string, gated by its own
comparison `probability >= 0.3`, not by the tier value. -/
def adviceText (probability : ℚ) : String :=
  if 3 / 10 ≤ probability then
    "Reduce sugar intake, maintain healthy weight, and exercise regularly."
  else "Maintain current healthy lifestyle."

/-- The fields the POST / handler computes and hands to the template
(src/app.py lines 93–101). -/
structure Assessment where
  result : String
  explanation : String
  advice : String
  risk_colour : String
  risk_percent : ℚ

/-- src/app.py lines 60–91, after the model call: the assessment derived
from the four raw inputs and the returned probability.  Each branch of
the tier cascade sets the colour and the result string together, which is
factored here through `classifyTier`. -/
def indexCore (glucose blood_pressure bmi age probability : ℚ) : Assessment :=
  let risk_percent := pyRound1 (probability * 100)
  { result := tierLabel (classifyTier probability) ++ " diabetes risk (" ++
      fmtTenths risk_percent ++ "%)"
    explanation := explanationText glucose bmi age
    advice := adviceText probability
    risk_colour := tierColour (classifyTier probability)
    risk_percent := risk_percent }

/-- src/app.py lines 36–91: the POST / handler, with the loaded model as
an opaque function `predict` from the feature vector to a probability
(`model.predict_proba(input_data)[0][1]`, line 60). -/
def indexPost (predict : List ℚ → ℚ) (form : Form) : Assessment :=
  let glucose := get_float form "glucose" 100
  let blood_pressure := get_float form "blood_pressure" 70
  let bmi := get_float form "bmi" 25
  let age := get_float form "age" 30
  indexCore glucose blood_pressure bmi age
    (predict (assemble glucose blood_pressure bmi age))

/-- Modelled from the spec: the HTML result page (templates/index.html is
not under src/) echoes the computed fields `result`, `risk_percent`,
`explanation` and `advice` back as form fields of the /report request —
"a flat echo of the previously computed textual/numeric fields".  The
numeric `risk_percent` travels as its decimal rendering. -/
def echoForm (a : Assessment) : Form :=
  [("result", a.result),
   ("risk_percent", fmtTenths a.risk_percent),
   ("explanation", a.explanation),
   ("advice", a.advice)]

/-- `hasPrefixL n h`: `n` is a prefix of `h` (character lists). -/
def hasPrefixL : List Char → List Char → Bool
  | [], _ => true
  | _ :: _, [] => false
  | a :: as, b :: bs => a == b && hasPrefixL as bs

/-- `hasSubstrL n h`: `n` occurs contiguously somewhere in `h`. -/
def hasSubstrL (needle : List Char) : List Char → Bool
  | [] => hasPrefixL needle []
  | c :: rest => hasPrefixL needle (c :: rest) || hasSubstrL needle rest

/-- Model of Python `needle in hay` on strings: substring occurrence. -/
def containsSub (needle hay : String) : Bool := hasSubstrL needle.data hay.data

/-- src/app.py lines 148–152: the report colour chosen purely by
substring search on the client-echoed result text. -/
def reportColor (risk_text : String) : String :=
  if containsSub "Low" risk_text then "green"
  else if containsSub "Moderate" risk_text then "orange"
  else "red"

/-- The data the /report handler renders into the PDF: the coloured
summary line, the echoed percentage text, explanation and advice
sections, and the single-bar chart value and colour. -/
structure PdfReport where
  riskText : String
  riskColor : String
  percentText : String
  explanation : String
  advice : String
  chartValue : ℚ
  chartColor : String

/-- src/app.py lines 109–219: the POST /report handler.  Indexing a
missing key of `request.form` raises Flask's `BadRequestKeyError`, which
the framework turns into a 400 response before any PDF is built; the
fields are read in source order (lines 147, 160, 179, 187).  An uncaught
`ValueError` from `float(request.form["risk_percent"])` (line 201) is a
500.  The chart bar colour is the same `risk_color` (line 207). -/
def report (form : Form) : Except Nat PdfReport :=
  match List.lookup "result" form with
  | none => .error 400
  | some risk_text =>
    let risk_color := reportColor risk_text
    match List.lookup "risk_percent" form with
    | none => .error 400
    | some percent_str =>
      match List.lookup "explanation" form with
      | none => .error 400
      | some expl =>
        match List.lookup "advice" form with
        | none => .error 400
        | some adv =>
          match parseFloat percent_str with
          | none => .error 500
          | some v =>
            .ok { riskText := risk_text
                  riskColor := risk_color
                  percentText := percent_str
                  explanation := expl
                  advice := adv
                  chartValue := v
                  chartColor := risk_color }

theorem parseDigitsAux_append (xs : List Char) : ∀ acc ys,
    parseDigitsAux acc (xs ++ ys) =
      (parseDigitsAux acc xs).bind (fun a => parseDigitsAux a ys) := by
  induction xs with
  | nil => intro acc ys; simp [parseDigitsAux]
  | cons c cs ih =>
    intro acc ys
    simp only [List.cons_append, parseDigitsAux]
    cases charDigit c with
    | none => simp
    | some d => simp [ih]

theorem charDigit_dChar (d : Nat) (hd : d < 10) : charDigit (dChar d) = some d := by
  interval_cases d <;> decide

theorem dChar_beq_dot (d : Nat) (hd : d < 10) : (dChar d == '.') = false := by
  interval_cases d <;> decide

theorem dChar_beq_dash (d : Nat) (hd : d < 10) : (dChar d == '-') = false := by
  interval_cases d <;> decide

theorem natCharsF_parse (fuel : Nat) : ∀ n acc, n < fuel →
    parseDigitsAux acc (natCharsF fuel n) =
      some (acc * 10 ^ (natCharsF fuel n).length + n) := by
  induction fuel with
  | zero => intro n acc h; omega
  | succ fuel ih =>
    intro n acc h
    by_cases h10 : n < 10
    · simp [natCharsF, h10, parseDigitsAux, charDigit_dChar n h10]
    · have hrec : n / 10 < fuel := by omega
      have hm : n % 10 < 10 := Nat.mod_lt _ (by omega)
      simp only [natCharsF, if_neg h10, parseDigitsAux_append, ih (n / 10) acc hrec,
        Option.some_bind, parseDigitsAux, charDigit_dChar (n % 10) hm,
        List.length_append, List.length_singleton]
      congr 1
      set L := (natCharsF fuel (n / 10)).length with hL
      have h2 : n / 10 * 10 + n % 10 = n := by omega
      have h3 : (10 : ℕ) ^ (L + 1) = 10 ^ L * 10 := by ring
      calc (acc * 10 ^ L + n / 10) * 10 + n % 10
          = acc * (10 ^ L * 10) + (n / 10 * 10 + n % 10) := by ring
        _ = acc * 10 ^ (L + 1) + n := by rw [h3, h2]

theorem natCharsF_mem (fuel : Nat) : ∀ n, n < fuel →
    ∀ c ∈ natCharsF fuel n, ∃ d, d < 10 ∧ c = dChar d := by
  induction fuel with
  | zero => intro n h; omega
  | succ fuel ih =>
    intro n h c hc
    by_cases h10 : n < 10
    · simp [natCharsF, h10] at hc
      exact ⟨n, h10, hc⟩
    · simp only [natCharsF, if_neg h10, List.mem_append, List.mem_singleton] at hc
      rcases hc with hc | hc
      · exact ih (n / 10) (by omega) c hc
      · exact ⟨n % 10, Nat.mod_lt _ (by omega), hc⟩

theorem natCharsF_ne_nil (fuel n : Nat) (h : n < fuel) : natCharsF fuel n ≠ [] := by
  cases fuel with
  | zero => omega
  | succ fuel =>
    by_cases h10 : n < 10
    · simp [natCharsF, h10]
    · simp [natCharsF, h10]

theorem splitDot_append (xs ys : List Char)
    (hx : ∀ c ∈ xs, (c == '.') = false) :
    splitDot (xs ++ '.' :: ys) = (xs, some ys) := by
  induction xs with
  | nil => simp [splitDot]
  | cons c cs ih =>
    have hc : (c == '.') = false := hx c (List.mem_cons_self c cs)
    simp only [List.cons_append, splitDot, hc, Bool.false_eq_true, if_false,
      List.append_eq]
    rw [ih (fun d hd => hx d (List.mem_cons_of_mem c hd))]

theorem parseDigitsAux_natChars (n : Nat) :
    parseDigitsAux 0 (natChars n) = some n := by
  have h := natCharsF_parse (n + 1) n 0 (Nat.lt_succ_self n)
  simpa [natChars] using h

theorem natChars_mem (n : Nat) :
    ∀ c ∈ natChars n, ∃ d, d < 10 ∧ c = dChar d :=
  natCharsF_mem (n + 1) n (Nat.lt_succ_self n)

theorem natChars_ne_nil (n : Nat) : natChars n ≠ [] :=
  natCharsF_ne_nil (n + 1) n (Nat.lt_succ_self n)

theorem natChars_lt_ten (n : Nat) (h : n < 10) : natChars n = [dChar n] := by
  simp [natChars, natCharsF, h]

theorem parse_fmtNatTenths (m : Nat) :
    parseFloat (fmtNatTenths m) = some ((m : ℚ) / 10) := by
  have hdig := natChars_mem (m / 10)
  have hdot : ∀ c ∈ natChars (m / 10), (c == '.') = false := by
    intro c hc
    obtain ⟨d, hd, rfl⟩ := hdig c hc
    exact dChar_beq_dot d hd
  obtain ⟨c, cs, hcons⟩ : ∃ c cs, natChars (m / 10) = c :: cs := by
    cases h : natChars (m / 10) with
    | nil => exact absurd h (natChars_ne_nil _)
    | cons c cs => exact ⟨c, cs, rfl⟩
  have hcdash : (c == '-') = false := by
    obtain ⟨d, hd, hcd⟩ := hdig c (by rw [hcons]; exact List.mem_cons_self c cs)
    rw [hcd]; exact dChar_beq_dash d hd
  have hsplit : splitDot (natChars (m / 10) ++ '.' :: natChars (m % 10)) =
      (natChars (m / 10), some (natChars (m % 10))) := splitDot_append _ _ hdot
  have hm : m % 10 < 10 := Nat.mod_lt _ (by omega)
  have hfrac : natChars (m % 10) = [dChar (m % 10)] := natChars_lt_ten _ hm
  unfold parseFloat fmtNatTenths
  rw [show (String.mk (natChars (m / 10) ++ '.' :: natChars (m % 10))).data =
      natChars (m / 10) ++ '.' :: natChars (m % 10) from rfl]
  rw [hcons]
  simp only [List.cons_append] at hsplit ⊢
  rw [hcons] at hsplit
  simp only [List.cons_append] at hsplit
  simp only [hcdash, Bool.false_eq_true, if_false]
  unfold parseUnsigned
  rw [hsplit]
  have hip : parseDigitsAux 0 (c :: cs) = some (m / 10) := by
    rw [← hcons]; exact parseDigitsAux_natChars (m / 10)
  have hfp : parseDigitsAux 0 (natChars (m % 10)) = some (m % 10) :=
    parseDigitsAux_natChars (m % 10)
  have hlen : (natChars (m % 10)).length = 1 := by rw [hfrac]; rfl
  simp only [List.isEmpty_cons, Bool.false_and, Bool.false_eq_true, if_false]
  rw [hip, hfp, hlen]
  show some (((m / 10 : ℕ) : ℚ) + ((m % 10 : ℕ) : ℚ) / 10 ^ (1 : ℕ)) =
    some ((m : ℚ) / 10)
  congr 1
  have hmod : ((m / 10 : Nat) : ℚ) * 10 + ((m % 10 : Nat) : ℚ) = (m : ℚ) := by
    have hdm : (10 * (m / 10) + m % 10 : ℕ) = m := Nat.div_add_mod m 10
    calc ((m / 10 : Nat) : ℚ) * 10 + ((m % 10 : Nat) : ℚ)
        = ((10 * (m / 10) + m % 10 : ℕ) : ℚ) := by push_cast; ring
      _ = (m : ℚ) := by rw [hdm]
  have hsplit2 : ((m / 10 : ℕ) : ℚ) + ((m % 10 : ℕ) : ℚ) / 10 =
      (((m / 10 : ℕ) : ℚ) * 10 + ((m % 10 : ℕ) : ℚ)) / 10 := by ring
  rw [pow_one, hsplit2, hmod]

theorem rhe_nonneg (x : ℚ) (hx : 0 ≤ x) : 0 ≤ rhe x := by
  have hf : (0 : ℤ) ≤ ⌊x⌋ := Int.floor_nonneg.mpr hx
  simp only [rhe]
  split_ifs <;> omega

theorem rhe_err (x : ℚ) : |(rhe x : ℚ) - x| ≤ 1 / 2 := by
  have h1 : ((⌊x⌋ : ℤ) : ℚ) ≤ x := Int.floor_le x
  have h2 : x < (⌊x⌋ : ℚ) + 1 := Int.lt_floor_add_one x
  simp only [rhe]
  split_ifs with ha hb hc
  · rw [abs_le]; constructor <;> push_cast <;> linarith
  · rw [abs_le]; constructor <;> push_cast <;> linarith
  · rw [abs_le]; constructor <;> push_cast <;> linarith
  · rw [abs_le]; constructor <;> push_cast <;> linarith

theorem pyRound1_tenths (x : ℚ) : pyRound1 x = ((rhe (x * 10) : ℤ) : ℚ) / 10 := rfl

theorem pyRound1_err (x : ℚ) : |pyRound1 x - x| ≤ 1 / 20 := by
  have h := rhe_err (x * 10)
  have h10 : (0 : ℚ) < 10 := by norm_num
  have hrw : pyRound1 x - x = (((rhe (x * 10) : ℤ) : ℚ) - x * 10) / 10 := by
    unfold pyRound1; ring
  rw [hrw, abs_div, abs_of_pos h10]
  rw [abs_le] at h
  rw [div_le_iff h10]
  rw [abs_le]
  constructor <;> linarith

theorem pyRound1_floor (x : ℚ) (hx : 0 ≤ x) :
    ⌊pyRound1 x * 10⌋ = rhe (x * 10) := by
  unfold pyRound1
  have h10 : (10 : ℚ) ≠ 0 := by norm_num
  rw [div_mul_cancel₀ _ h10, Int.floor_intCast]

theorem parse_fmt_pyRound1 (x : ℚ) (hx : 0 ≤ x) :
    parseFloat (fmtTenths (pyRound1 x)) = some (pyRound1 x) := by
  have hk : 0 ≤ rhe (x * 10) := rhe_nonneg _ (by positivity)
  unfold fmtTenths
  rw [pyRound1_floor x hx]
  rw [parse_fmtNatTenths]
  congr 1
  unfold pyRound1
  congr 1
  exact_mod_cast Int.toNat_of_nonneg hk

theorem hasPrefixL_iff (n : List Char) : ∀ h : List Char,
    hasPrefixL n h = true ↔ ∃ rest, h = n ++ rest := by
  induction n with
  | nil =>
    intro h
    simp [hasPrefixL]
  | cons a as ih =>
    intro h
    cases h with
    | nil =>
      constructor
      · intro hfalse; exact absurd hfalse (by simp [hasPrefixL])
      · rintro ⟨rest, hrest⟩; exact absurd hrest (by simp)
    | cons b bs =>
      simp only [hasPrefixL, Bool.and_eq_true, beq_iff_eq, ih bs]
      constructor
      · rintro ⟨rfl, rest, rfl⟩
        exact ⟨rest, rfl⟩
      · rintro ⟨rest, hrest⟩
        rw [List.cons_append] at hrest
        injection hrest with h1 h2
        exact ⟨h1.symm, rest, h2⟩

theorem hasSubstrL_iff (n : List Char) : ∀ h : List Char,
    hasSubstrL n h = true ↔ ∃ pre post, h = pre ++ n ++ post := by
  intro h
  induction h with
  | nil =>
    cases n with
    | nil =>
      simp [hasSubstrL, hasPrefixL]
    | cons c cs =>
      simp [hasSubstrL, hasPrefixL]
  | cons b bs ih =>
    simp only [hasSubstrL, Bool.or_eq_true, hasPrefixL_iff, ih]
    constructor
    · rintro (⟨rest, hr⟩ | ⟨pre, post, hp⟩)
      · exact ⟨[], rest, by simpa using hr⟩
      · exact ⟨b :: pre, post, by simp [hp]⟩
    · rintro ⟨pre, post, hp⟩
      cases pre with
      | nil =>
        left
        exact ⟨post, by simpa using hp⟩
      | cons x xs =>
        right
        rw [List.cons_append, List.cons_append] at hp
        injection hp with h1 h2
        exact ⟨xs, post, by simpa using h2⟩

/-- C1: for every probability p in [0,1], the classification gives tier
Low with colour green and summary "Low diabetes risk ({riskPercent}%)"
when p < 0.3, tier Moderate with colour orange and the Moderate summary
when 0.3 ≤ p < 0.6, and tier High with colour red and the High summary
when p ≥ 0.6; lower bounds inclusive, labels literal. -/
theorem c1_tier_colour_summary (g bp b a p : ℚ) (h0 : 0 ≤ p) (h1 : p ≤ 1) :
    (p < 3 / 10 → classifyTier p = Tier.Low ∧
      (indexCore g bp b a p).risk_colour = "green" ∧
      (indexCore g bp b a p).result =
        "Low diabetes risk (" ++ fmtTenths (pyRound1 (p * 100)) ++ "%)") ∧
    (3 / 10 ≤ p → p < 3 / 5 → classifyTier p = Tier.Moderate ∧
      (indexCore g bp b a p).risk_colour = "orange" ∧
      (indexCore g bp b a p).result =
        "Moderate diabetes risk (" ++ fmtTenths (pyRound1 (p * 100)) ++ "%)") ∧
    (3 / 5 ≤ p → classifyTier p = Tier.High ∧
      (indexCore g bp b a p).risk_colour = "red" ∧
      (indexCore g bp b a p).result =
        "High diabetes risk (" ++ fmtTenths (pyRound1 (p * 100)) ++ "%)") := by
  refine ⟨?_, ?_, ?_⟩
  · intro hp
    have ht : classifyTier p = Tier.Low := by
      unfold classifyTier; rw [if_pos hp]
    refine ⟨ht, ?_, ?_⟩
    · simp [indexCore, ht, tierColour]
    · simp only [indexCore, ht, tierLabel]
      rfl
  · intro hp1 hp2
    have ht : classifyTier p = Tier.Moderate := by
      unfold classifyTier; rw [if_neg (not_lt.mpr hp1), if_pos hp2]
    refine ⟨ht, ?_, ?_⟩
    · simp [indexCore, ht, tierColour]
    · simp only [indexCore, ht, tierLabel]
      rfl
  · intro hp
    have ht : classifyTier p = Tier.High := by
      unfold classifyTier
      rw [if_neg (not_lt.mpr (by linarith)), if_neg (not_lt.mpr hp)]
    refine ⟨ht, ?_, ?_⟩
    · simp [indexCore, ht, tierColour]
    · simp only [indexCore, ht, tierLabel]
      rfl

/-- C1 witness: at the boundary p = 0.3 the handler yields the Moderate
tier, orange colour and the Moderate summary string. -/
theorem c1_witness :
    classifyTier (3 / 10) = Tier.Moderate ∧
    (indexCore 0 0 0 0 (3 / 10)).risk_colour = "orange" ∧
    (indexCore 0 0 0 0 (3 / 10)).result =
      "Moderate diabetes risk (" ++ fmtTenths (pyRound1 (3 / 10 * 100)) ++ "%)" :=
  (c1_tier_colour_summary 0 0 0 0 (3 / 10) (by norm_num) (by norm_num)).2.1
    (by norm_num) (by norm_num)

/-- C2: the explanation text depends only on the raw inputs glucose, bmi
and age, never on the probability or tier; in each of the eight trigger
configurations it is exactly the comma-join of the fired phrases
"elevated glucose", "high BMI", "older age" in that fixed order after
"Main contributing factors: ", and with no trigger it is
"No major risk factors detected.". -/
theorem c2_explanation (g bp b a p q : ℚ) :
    (indexCore g bp b a p).explanation = explanationText g b a ∧
    (indexCore g bp b a p).explanation = (indexCore g bp b a q).explanation ∧
    (g ≤ 140 → b ≤ 30 → a ≤ 45 →
      explanationText g b a = "No major risk factors detected.") ∧
    (g > 140 → b ≤ 30 → a ≤ 45 →
      explanationText g b a = "Main contributing factors: elevated glucose") ∧
    (g ≤ 140 → b > 30 → a ≤ 45 →
      explanationText g b a = "Main contributing factors: high BMI") ∧
    (g ≤ 140 → b ≤ 30 → a > 45 →
      explanationText g b a = "Main contributing factors: older age") ∧
    (g > 140 → b > 30 → a ≤ 45 →
      explanationText g b a = "Main contributing factors: elevated glucose, high BMI") ∧
    (g > 140 → b ≤ 30 → a > 45 →
      explanationText g b a = "Main contributing factors: elevated glucose, older age") ∧
    (g ≤ 140 → b > 30 → a > 45 →
      explanationText g b a = "Main contributing factors: high BMI, older age") ∧
    (g > 140 → b > 30 → a > 45 →
      explanationText g b a =
        "Main contributing factors: elevated glucose, high BMI, older age") := by
  refine ⟨rfl, rfl, ?_, ?_, ?_, ?_, ?_, ?_, ?_, ?_⟩ <;> intro h1 h2 h3 <;>
    unfold explanationText reasons <;>
    simp only [if_pos, if_neg, not_lt.mpr, h1, h2, h3, gt_iff_lt] <;> rfl

/-- C2 witness: the spec's example glucose=150, bmi=35, age=50 fires all
three triggers in the fixed order. -/
theorem c2_witness :
    explanationText 150 35 50 =
      "Main contributing factors: elevated glucose, high BMI, older age" :=
  (c2_explanation 150 0 35 50 0 1).2.2.2.2.2.2.2.2.2
    (by norm_num) (by norm_num) (by norm_num)

/-- C3: the advice text is "Reduce sugar intake, maintain healthy weight,
and exercise regularly." exactly when p ≥ 0.3 and "Maintain current
healthy lifestyle." exactly when p < 0.3, computed by its own comparison
on the probability (`adviceText`), not from the tier. -/
theorem c3_advice (p : ℚ) :
    (adviceText p =
      "Reduce sugar intake, maintain healthy weight, and exercise regularly." ↔
      3 / 10 ≤ p) ∧
    (adviceText p = "Maintain current healthy lifestyle." ↔ p < 3 / 10) ∧
    ∀ g bp b a, (indexCore g bp b a p).advice = adviceText p := by
  refine ⟨⟨?_, ?_⟩, ⟨?_, ?_⟩, fun g bp b a => rfl⟩
  · unfold adviceText; split_ifs with h
    · exact fun _ => h
    · intro hcontra; exact absurd hcontra (by decide)
  · intro h; unfold adviceText; rw [if_pos h]
  · unfold adviceText; split_ifs with h
    · intro hcontra; exact absurd hcontra (by decide)
    · intro _; exact not_le.mp h
  · intro hlt; unfold adviceText; rw [if_neg (not_le.mpr hlt)]

/-- C3 witness: at the boundary p = 0.3 the advice is the risk-reduction
sentence, and at p = 0.29 the maintenance sentence. -/
theorem c3_witness :
    adviceText (3 / 10) =
      "Reduce sugar intake, maintain healthy weight, and exercise regularly." ∧
    adviceText (29 / 100) = "Maintain current healthy lifestyle." :=
  ⟨(c3_advice (3 / 10)).1.mpr (by norm_num),
   (c3_advice (29 / 100)).2.1.mpr (by norm_num)⟩

/-- C4: the feature vector passed to the model is exactly the fixed-order
8-tuple [0, glucose, bloodPressure, 20, 80, bmi, 0.5, age]; in
particular assemble(150, 80, 28, 40) = [0,150,80,20,80,28,0.5,40]. -/
theorem c4_feature_vector (g bp b a : ℚ) :
    assemble g bp b a = [0, g, bp, 20, 80, b, 1 / 2, a] ∧
    (assemble g bp b a).length = 8 ∧
    assemble 150 80 28 40 = [0, 150, 80, 20, 80, 28, 1 / 2, 40] :=
  ⟨rfl, rfl, rfl⟩

/-- C5: a form field that is missing or fails to parse as a number is
silently replaced by its default; a parseable value is taken as given
with no range check, and the handler reads the four fields with defaults
100, 70, 25, 30.  `get_float` is total: no error is surfaced. -/
theorem c5_default_fallback (form : Form) (key : String) (d : ℚ) :
    (List.lookup key form = none → get_float form key d = d) ∧
    (∀ s, List.lookup key form = some s → parseFloat s = none →
      get_float form key d = d) ∧
    (∀ s v, List.lookup key form = some s → parseFloat s = some v →
      get_float form key d = v) ∧
    (∀ predict, indexPost predict form =
      indexCore (get_float form "glucose" 100) (get_float form "blood_pressure" 70)
        (get_float form "bmi" 25) (get_float form "age" 30)
        (predict (assemble (get_float form "glucose" 100)
          (get_float form "blood_pressure" 70) (get_float form "bmi" 25)
          (get_float form "age" 30)))) := by
  refine ⟨?_, ?_, ?_, fun predict => rfl⟩
  · intro h; unfold get_float; rw [h]
  · intro s hs hp; unfold get_float; rw [hs]; simp only [hp]
  · intro s v hs hp; unfold get_float; rw [hs]; simp only [hp]

/-- C5 witness: glucose="abc" falls back to the default 100. -/
theorem c5_witness : get_float [("glucose", "abc")] "glucose" 100 = 100 :=
  (c5_default_fallback [("glucose", "abc")] "glucose" 100).2.1 "abc"
    (by decide) (by decide)

/-- C6: the tier is monotone non-decreasing in the probability under the
order Low < Moderate < High, and every probability gets exactly one of
the three tiers. -/
theorem c6_monotone (p1 p2 : ℚ) (h : p1 ≤ p2) :
    tierVal (classifyTier p1) ≤ tierVal (classifyTier p2) ∧
    ∀ p : ℚ, classifyTier p = Tier.Low ∨ classifyTier p = Tier.Moderate ∨
      classifyTier p = Tier.High := by
  constructor
  · unfold classifyTier
    split_ifs <;> simp [tierVal] <;> linarith
  · intro p; unfold classifyTier; split_ifs <;> simp

/-- C6 witness: monotonicity at the concrete pair 0.1 ≤ 0.7. -/
theorem c6_witness :
    tierVal (classifyTier (1 / 10)) ≤ tierVal (classifyTier (7 / 10)) :=
  (c6_monotone (1 / 10) (7 / 10) (by norm_num)).1

/-- C7: riskPercent is probability × 100 rounded to one decimal place
(an exact multiple of 1/10, within 1/20 of p × 100, by the half-even rule
of Python's round), and this single value is the one embedded in the
summary string and the one the chart recovers by parsing its rendering. -/
theorem c7_risk_percent (g bp b a p : ℚ) (hp : 0 ≤ p) :
    (indexCore g bp b a p).risk_percent = pyRound1 (p * 100) ∧
    (∃ n : ℤ, (indexCore g bp b a p).risk_percent = (n : ℚ) / 10) ∧
    |(indexCore g bp b a p).risk_percent - p * 100| ≤ 1 / 20 ∧
    (indexCore g bp b a p).result = tierLabel (classifyTier p) ++
      " diabetes risk (" ++ fmtTenths ((indexCore g bp b a p).risk_percent) ++ "%)" ∧
    parseFloat (fmtTenths ((indexCore g bp b a p).risk_percent)) =
      some ((indexCore g bp b a p).risk_percent) := by
  have hrp : (indexCore g bp b a p).risk_percent = pyRound1 (p * 100) := rfl
  refine ⟨rfl, ⟨rhe (p * 100 * 10), rfl⟩, ?_, rfl, ?_⟩
  · rw [hrp]; exact pyRound1_err (p * 100)
  · rw [hrp]; exact parse_fmt_pyRound1 (p * 100) (by positivity)

/-- C7 witness: at p = 0.42 riskPercent is the rounded value and parsing
its rendering recovers it exactly. -/
theorem c7_witness :
    (indexCore 0 0 0 0 (21 / 50)).risk_percent = pyRound1 (21 / 50 * 100) ∧
    parseFloat (fmtTenths ((indexCore 0 0 0 0 (21 / 50)).risk_percent)) =
      some ((indexCore 0 0 0 0 (21 / 50)).risk_percent) := by
  have h := c7_risk_percent 0 0 0 0 (21 / 50) (by norm_num)
  exact ⟨h.1, h.2.2.2.2⟩

/-- C8: a POST /report body missing any of result, risk_percent,
explanation or advice gets a 4xx response (Flask's 400 for a missing
form key) and no PDF is produced. -/
theorem c8_missing_fields (form : Form)
    (h : List.lookup "result" form = none ∨
      List.lookup "risk_percent" form = none ∨
      List.lookup "explanation" form = none ∨
      List.lookup "advice" form = none) :
    (∃ c, report form = Except.error c ∧ 400 ≤ c ∧ c < 500) ∧
    ∀ r : PdfReport, report form ≠ Except.ok r := by
  have herr : report form = Except.error 400 := by
    unfold report
    rcases h with h | h | h | h
    · rw [h]
    · cases h1 : List.lookup "result" form <;> simp [h1, h]
    · cases h1 : List.lookup "result" form <;>
        cases h2 : List.lookup "risk_percent" form <;> simp [h1, h2, h]
    · cases h1 : List.lookup "result" form <;>
        cases h2 : List.lookup "risk_percent" form <;>
          cases h3 : List.lookup "explanation" form <;> simp [h1, h2, h3, h]
  refine ⟨⟨400, herr, by norm_num, by norm_num⟩, ?_⟩
  intro r hr
  rw [herr] at hr
  exact Except.noConfusion hr

/-- C8 witness: the empty body is rejected with a 400 and no PDF. -/
theorem c8_witness :
    (∃ c, report [] = Except.error c ∧ 400 ≤ c ∧ c < 500) ∧
    ∀ r : PdfReport, report [] ≠ Except.ok r :=
  c8_missing_fields [] (Or.inl rfl)

/-- C9: for the same probability, the riskPercent shown in the HTML
result and the number the PDF chart uses are identical: the /report
handler parses the echoed risk_percent rendering back to exactly the
round(p × 100, 1) value the HTML request computed. -/
theorem c9_round_trip (g bp b a p : ℚ) (hp : 0 ≤ p) :
    ∃ r : PdfReport, report (echoForm (indexCore g bp b a p)) = Except.ok r ∧
      r.chartValue = (indexCore g bp b a p).risk_percent ∧
      (indexCore g bp b a p).risk_percent = pyRound1 (p * 100) := by
  have hrp : (indexCore g bp b a p).risk_percent = pyRound1 (p * 100) := rfl
  have hparse : parseFloat (fmtTenths (pyRound1 (p * 100))) =
      some (pyRound1 (p * 100)) := parse_fmt_pyRound1 (p * 100) (by positivity)
  refine ⟨{ riskText := (indexCore g bp b a p).result,
            riskColor := reportColor (indexCore g bp b a p).result,
            percentText := fmtTenths (pyRound1 (p * 100)),
            explanation := (indexCore g bp b a p).explanation,
            advice := (indexCore g bp b a p).advice,
            chartValue := pyRound1 (p * 100),
            chartColor := reportColor (indexCore g bp b a p).result }, ?_, rfl, rfl⟩
  unfold report echoForm
  rw [hrp]
  simp [List.lookup, hparse]

/-- C9 witness: the round trip at the concrete probability p = 0.5. -/
theorem c9_witness :
    ∃ r : PdfReport, report (echoForm (indexCore 0 0 0 0 (1 / 2))) = Except.ok r ∧
      r.chartValue = (indexCore 0 0 0 0 (1 / 2)).risk_percent ∧
      (indexCore 0 0 0 0 (1 / 2)).risk_percent = pyRound1 (1 / 2 * 100) :=
  c9_round_trip 0 0 0 0 (1 / 2) (by norm_num)

/-- C10: the PDF colour is chosen solely by substring search on the
client-echoed result text — "Low" anywhere gives green, else "Moderate"
anywhere gives orange, else red (so fabricated text with neither
substring is rendered red) — and the chart bar gets the same colour as
the summary text. -/
theorem c10_color_substring (t : String) :
    (containsSub "Low" t = true ↔
      ∃ pre post, t.data = pre ++ "Low".data ++ post) ∧
    (containsSub "Moderate" t = true ↔
      ∃ pre post, t.data = pre ++ "Moderate".data ++ post) ∧
    (containsSub "Low" t = true → reportColor t = "green") ∧
    (containsSub "Low" t = false → containsSub "Moderate" t = true →
      reportColor t = "orange") ∧
    (containsSub "Low" t = false → containsSub "Moderate" t = false →
      reportColor t = "red") ∧
    (∀ form r, report form = Except.ok r →
      r.chartColor = reportColor r.riskText ∧
      r.riskColor = reportColor r.riskText) := by
  refine ⟨hasSubstrL_iff _ _, hasSubstrL_iff _ _, ?_, ?_, ?_, ?_⟩
  · intro h; unfold reportColor; rw [if_pos h]
  · intro h1 h2; unfold reportColor
    rw [if_neg (by simp [h1]), if_pos h2]
  · intro h1 h2; unfold reportColor
    rw [if_neg (by simp [h1]), if_neg (by simp [h2])]
  · intro form r hr
    unfold report at hr
    cases h1 : List.lookup "result" form with
    | none => simp only [h1] at hr; exact absurd hr (by simp)
    | some risk_text =>
      simp only [h1] at hr
      cases h2 : List.lookup "risk_percent" form with
      | none => simp only [h2] at hr; exact absurd hr (by simp)
      | some percent_str =>
        simp only [h2] at hr
        cases h3 : List.lookup "explanation" form with
        | none => simp only [h3] at hr; exact absurd hr (by simp)
        | some expl =>
          simp only [h3] at hr
          cases h4 : List.lookup "advice" form with
          | none => simp only [h4] at hr; exact absurd hr (by simp)
          | some adv =>
            simp only [h4] at hr
            cases h5 : parseFloat percent_str with
            | none => simp only [h5] at hr; exact absurd hr (by simp)
            | some v =>
              simp only [h5, Except.ok.injEq] at hr
              subst hr
              exact ⟨rfl, rfl⟩

/-- C10 witness: a fabricated result text containing neither "Low" nor
"Moderate" is rendered red. -/
theorem c10_witness : reportColor "Totally fabricated" = "red" :=
  (c10_color_substring "Totally fabricated").2.2.2.2.1 (by decide) (by decide)
